import Mathlib

/-!
Verification model of the two MCP adapter servers
(`calendar-server/server.py` and `email-server/server.py`).

Python values flowing through the servers (tool-call argument maps,
provider request/response JSON bodies) are modelled by `JVal`; Python
dicts are modelled as ordered association lists (`JObj`), matching
insertion-order semantics of Python dicts.  Each operation handler is a
pure function from the (possibly unset) authenticated service handle and
the argument map to the list of provider API calls it issues together
with either its returned tool result or the exception escaping it.
Provider API behaviour is an oracle supplied as a structure of functions
returning `Except String` values (`.error` = the provider call raised).
-/

set_option maxHeartbeats 1000000
set_option maxRecDepth 4096

/-- A Python/JSON value as it appears in tool-call argument maps and
provider payloads. -/
inductive JVal where
  | null
  | str (s : String)
  | int (n : Int)
  | bool (b : Bool)
  | arr (vs : List JVal)
  | obj (kvs : List (String × JVal))

/-- A Python dict with string keys, as an insertion-ordered association list. -/
abbrev JObj := List (String × JVal)

/-- A tool-call argument map (`arguments: Dict[str, Any]`). -/
abbrev Args := JObj

/-- Python `d.get(k)` / `k in d` lookup on a dict: first binding of `k`. -/
def dget (d : JObj) (k : String) : Option JVal :=
  match d with
  | [] => none
  | (k1, v1) :: rest => if k1 = k then some v1 else dget rest k

/-- Python `d[k] = v` on a dict: overwrite in place if the key exists
(keeping its position), otherwise append the new binding. -/
def dset (d : JObj) (k : String) (v : JVal) : JObj :=
  match d with
  | [] => [(k, v)]
  | (k1, v1) :: rest => if k1 = k then (k1, v) :: rest else (k1, v1) :: dset rest k v

/-- Python truthiness of a value (`if x:`). -/
def truthy : JVal → Bool
  | .null => false
  | .str s => !s.isEmpty
  | .int n => n != 0
  | .bool b => b
  | .arr vs => !vs.isEmpty
  | .obj kvs => !kvs.isEmpty

/-- Python `a or b`. -/
def pyOr (a b : JVal) : JVal := if truthy a then a else b

/-- Python iteration `for x in v`: lists yield elements, strings yield
1-character strings, dicts yield their keys; other values raise `TypeError`. -/
def pyIter : JVal → Except String (List JVal)
  | .arr vs => .ok vs
  | .str s => .ok (s.data.map fun c => .str (String.singleton c))
  | .obj kvs => .ok (kvs.map fun kv => .str kv.1)
  | .null => .error "TypeError: NoneType object is not iterable"
  | .int _ => .error "TypeError: int object is not iterable"
  | .bool _ => .error "TypeError: bool object is not iterable"

mutual
/-- Python `==` on values (dict equality is modelled positionally, which
agrees with Python on every comparison the servers actually perform:
comparisons against string literals). -/
def jeq : JVal → JVal → Bool
  | .null, .null => true
  | .str a, .str b => a == b
  | .int a, .int b => a == b
  | .bool a, .bool b => a == b
  | .bool a, .int b => (if a then (1 : Int) else 0) == b
  | .int a, .bool b => a == (if b then (1 : Int) else 0)
  | .arr a, .arr b => jeqList a b
  | .obj a, .obj b => jeqObj a b
  | _, _ => false

def jeqList : List JVal → List JVal → Bool
  | [], [] => true
  | a :: as, b :: bs => jeq a b && jeqList as bs
  | _, _ => false

def jeqObj : List (String × JVal) → List (String × JVal) → Bool
  | [], [] => true
  | (k1, v1) :: as, (k2, v2) :: bs => k1 == k2 && jeq v1 v2 && jeqObj as bs
  | _, _ => false
end

mutual
/-- Python `repr` of a value (used by `str` on containers). -/
def pyRepr : JVal → String
  | .null => "None"
  | .str s => "\x27" ++ s ++ "\x27"
  | .int n => toString n
  | .bool b => if b then "True" else "False"
  | .arr vs => "[" ++ pyReprList vs ++ "]"
  | .obj kvs => "\x7b" ++ pyReprObj kvs ++ "\x7d"

def pyReprList : List JVal → String
  | [] => ""
  | [v] => pyRepr v
  | v :: vs => pyRepr v ++ ", " ++ pyReprList vs

def pyReprObj : List (String × JVal) → String
  | [] => ""
  | [(k, v)] => "\x27" ++ k ++ "\x27: " ++ pyRepr v
  | (k, v) :: kvs => "\x27" ++ k ++ "\x27: " ++ pyRepr v ++ ", " ++ pyReprObj kvs
end

/-- Python `str()` of a value, as used in the servers' f-strings. -/
def pyStr : JVal → String
  | .str s => s
  | v => pyRepr v

/-- Python `v[k]` on an arbitrary value: `KeyError` when the key is
missing from a dict, `TypeError` when the value is not a dict. -/
def jIndex (v : JVal) (k : String) : Except String JVal :=
  match v with
  | .obj kvs =>
    match dget kvs k with
    | some x => .ok x
    | none => .error ("KeyError: " ++ k)
  | _ => .error "TypeError: value is not subscriptable"

/-- Python `v.get(k, d)` on an arbitrary value: `AttributeError` when the
value is not a dict. -/
def jGetD (v : JVal) (k : String) (d : JVal) : Except String JVal :=
  match v with
  | .obj kvs => .ok ((dget kvs k).getD d)
  | _ => .error "AttributeError: value has no attribute get"

/-- Python `k in v` membership test: key of a dict, element of a list,
substring of a string. -/
def pyContains (k : String) (v : JVal) : Except String Bool :=
  match v with
  | .obj kvs => .ok (dget kvs k).isSome
  | .arr vs => .ok (vs.any fun x => jeq (.str k) x)
  | .str s => .ok (decide ((s.splitOn k).length > 1))
  | _ => .error "TypeError: argument is not a container"

/-- One text content block of a tool result (`TextContent(type="text", text=...)`). -/
structure TextContent where
  type : String
  text : String
deriving DecidableEq, Repr

/-- `TextContent(type="text", text=s)`. -/
def tc (s : String) : TextContent := ⟨"text", s⟩

/-! ### URL-safe base64 (Python `base64.urlsafe_b64encode` / `urlsafe_b64decode`) -/

/-- The character for a 6-bit group in the URL-safe base64 alphabet
`A-Z a-z 0-9 - _`. -/
def b64Char (n : Nat) : Char :=
  Char.ofNat
    (if n < 26 then 65 + n
     else if n < 52 then 71 + n
     else if n < 62 then n - 4
     else if n = 62 then 45
     else 95)

/-- The 6-bit value of a URL-safe base64 character, `none` for characters
outside the alphabet. -/
def b64Val (c : Char) : Option Nat :=
  let n := c.toNat
  if 65 ≤ n ∧ n ≤ 90 then some (n - 65)
  else if 97 ≤ n ∧ n ≤ 122 then some (n - 71)
  else if 48 ≤ n ∧ n ≤ 57 then some (n + 4)
  else if n = 45 then some 62
  else if n = 95 then some 63
  else none

/-- URL-safe base64 encoding of a byte sequence, with `=` padding. -/
def b64EncodeList : List Nat → List Char
  | [] => []
  | [a] => [b64Char (a / 4), b64Char (a % 4 * 16), '=', '=']
  | [a, b] => [b64Char (a / 4), b64Char (a % 4 * 16 + b / 16), b64Char (b % 16 * 4), '=']
  | a :: b :: c :: rest =>
    b64Char (a / 4) :: b64Char (a % 4 * 16 + b / 16) ::
      b64Char (b % 16 * 4 + c / 64) :: b64Char (c % 64) :: b64EncodeList rest

/-- `base64.urlsafe_b64encode(bs).decode()`. -/
def b64urlEncode (bs : List Nat) : String := ⟨b64EncodeList bs⟩

/-- URL-safe base64 decoding of a character sequence to bytes;
`none` on bad padding or characters outside the alphabet. -/
def b64DecodeList : List Char → Option (List Nat)
  | [] => some []
  | c0 :: c1 :: c2 :: c3 :: rest =>
    match b64Val c0, b64Val c1 with
    | some v0, some v1 =>
      if c2 = '=' then
        if c3 = '=' ∧ rest = [] then some [v0 * 4 + v1 / 16] else none
      else
        match b64Val c2 with
        | some v2 =>
          if c3 = '=' then
            if rest = [] then some [v0 * 4 + v1 / 16, v1 % 16 * 16 + v2 / 4] else none
          else
            match b64Val c3 with
            | some v3 =>
              (b64DecodeList rest).map
                fun bs => (v0 * 4 + v1 / 16) :: (v1 % 16 * 16 + v2 / 4) :: (v2 % 4 * 64 + v3) :: bs
            | none => none
        | none => none
    | _, _ => none
  | _ => some []

/-! ### UTF-8 (Python `str.encode('utf-8')` / `bytes.decode('utf-8')`) -/

/-- UTF-8 encoding of a single Unicode code point. -/
def utf8EncodeChar (c : Nat) : List Nat :=
  if c < 0x80 then [c]
  else if c < 0x800 then [0xC0 + c / 64, 0x80 + c % 64]
  else if c < 0x10000 then [0xE0 + c / 4096, 0x80 + c / 64 % 64, 0x80 + c % 64]
  else [0xF0 + c / 262144, 0x80 + c / 4096 % 64, 0x80 + c / 64 % 64, 0x80 + c % 64]

/-- UTF-8 encoding of a string (the bytes of `s.encode('utf-8')`). -/
def utf8Encode (s : String) : List Nat :=
  (s.data.map fun ch => utf8EncodeChar ch.toNat).flatten

/-- Decode one UTF-8-encoded code point from the front of a byte
sequence, returning it and the remaining bytes: rejects stray or missing
continuation bytes, overlong forms, surrogates and values above
`0x10FFFF`, as Python's `bytes.decode('utf-8')` does. -/
def utf8Cont1 (b : Nat) : List Nat → Option (Nat × List Nat)
  | b1 :: bs1 =>
    if 0x80 ≤ b1 ∧ b1 < 0xC0 then some ((b - 0xC0) * 64 + (b1 - 0x80), bs1) else none
  | [] => none

def utf8Cont2 (b : Nat) : List Nat → Option (Nat × List Nat)
  | b1 :: b2 :: bs2 =>
    if (0x80 ≤ b1 ∧ b1 < 0xC0) ∧ (0x80 ≤ b2 ∧ b2 < 0xC0) then
      let c := (b - 0xE0) * 4096 + (b1 - 0x80) * 64 + (b2 - 0x80)
      if c < 0x800 ∨ (0xD800 ≤ c ∧ c < 0xE000) then none
      else some (c, bs2)
    else none
  | _ => none

def utf8Cont3 (b : Nat) : List Nat → Option (Nat × List Nat)
  | b1 :: b2 :: b3 :: bs3 =>
    if (0x80 ≤ b1 ∧ b1 < 0xC0) ∧ (0x80 ≤ b2 ∧ b2 < 0xC0) ∧ (0x80 ≤ b3 ∧ b3 < 0xC0) then
      let c := (b - 0xF0) * 262144 + (b1 - 0x80) * 4096 + (b2 - 0x80) * 64 + (b3 - 0x80)
      if c < 0x10000 ∨ 0x110000 ≤ c then none
      else some (c, bs3)
    else none
  | _ => none

def utf8Step : List Nat → Option (Nat × List Nat)
  | [] => none
  | b :: bs =>
    if b < 0x80 then some (b, bs)
    else if b < 0xC2 then none
    else if b < 0xE0 then utf8Cont1 b bs
    else if b < 0xF0 then utf8Cont2 b bs
    else if b < 0xF5 then utf8Cont3 b bs
    else none

theorem utf8Cont1_length (b : Nat) (l : List Nat) (c : Nat) (rest : List Nat)
    (h : utf8Cont1 b l = some (c, rest)) : rest.length < l.length := by
  match l with
  | [] => simp [utf8Cont1] at h
  | b1 :: bs1 =>
    rw [utf8Cont1] at h
    split at h
    · cases h; simp
    · cases h

theorem utf8Cont2_length (b : Nat) (l : List Nat) (c : Nat) (rest : List Nat)
    (h : utf8Cont2 b l = some (c, rest)) : rest.length < l.length := by
  match l with
  | [] => simp [utf8Cont2] at h
  | [b1] => simp [utf8Cont2] at h
  | b1 :: b2 :: bs2 =>
    rw [utf8Cont2] at h
    split at h
    · simp only [] at h
      split at h
      · cases h
      · cases h; simp; omega
    · cases h

theorem utf8Cont3_length (b : Nat) (l : List Nat) (c : Nat) (rest : List Nat)
    (h : utf8Cont3 b l = some (c, rest)) : rest.length < l.length := by
  match l with
  | [] => simp [utf8Cont3] at h
  | [b1] => simp [utf8Cont3] at h
  | [b1, b2] => simp [utf8Cont3] at h
  | b1 :: b2 :: b3 :: bs3 =>
    rw [utf8Cont3] at h
    split at h
    · simp only [] at h
      split at h
      · cases h
      · cases h; simp; omega
    · cases h

theorem utf8Step_length (l : List Nat) (c : Nat) (rest : List Nat)
    (h : utf8Step l = some (c, rest)) : rest.length < l.length := by
  match l with
  | [] => simp [utf8Step] at h
  | b :: bs =>
    rw [utf8Step] at h
    split at h
    · cases h; simp
    · split at h
      · cases h
      · split at h
        · have := utf8Cont1_length b bs c rest h
          simp
          omega
        · split at h
          · have := utf8Cont2_length b bs c rest h
            simp
            omega
          · split at h
            · have := utf8Cont3_length b bs c rest h
              simp
              omega
            · cases h

/-- Strict UTF-8 decoding of a byte sequence to code points. -/
def utf8DecodeCps (l : List Nat) : Option (List Nat) :=
  match l with
  | [] => some []
  | b :: bs =>
    match h : utf8Step (b :: bs) with
    | some (c, rest) => (utf8DecodeCps rest).map (c :: ·)
    | none => none
termination_by l.length
decreasing_by exact utf8Step_length _ _ _ h

/-- UTF-8 decoding of a byte sequence to a string (`bytes.decode('utf-8')`). -/
def utf8DecodeStr (bs : List Nat) : Option String :=
  (utf8DecodeCps bs).map fun cs => ⟨cs.map Char.ofNat⟩

/-! ### Calendar server (`calendar-server/server.py`) -/

/-- A provider API request issued by the calendar server. -/
inductive CalCall where
  | insert (calendarId : String) (body : JObj)
  | list (timeMin : JVal) (timeMax : JVal) (maxResults : JVal)
  | get (calendarId : String) (eventId : JVal)
  | update (calendarId : String) (eventId : JVal) (body : JObj)
  | delete (calendarId : String) (eventId : JVal)

/-- The authenticated Google Calendar API handle, as an oracle giving each
remote call's outcome (`.error` = the call raised). -/
structure CalService where
  insertExec : String → JObj → Except String JObj
  listExec : JVal → JVal → JVal → Except String JObj
  getExec : String → JVal → Except String JObj
  updateExec : String → JVal → JObj → Except String JObj
  deleteExec : String → JVal → Except String Unit

/-- The uninitialized-service message of the calendar handlers. -/
def uninitCalMsg : String :=
  "Google Calendar service is not initialized. Please check authentication."

/-- The event resource built by `add_event` (server.py lines 114-135):
argument extraction with defaults, the event dict literal, and the
conditional attachment of attendees.  Iterating a non-iterable
`attendees` value raises (outside the handler's `try`). -/
def addEventBody (args : Args) : Except String JObj :=
  let title := (dget args "title").getD .null
  let description := (dget args "description").getD (.str "")
  let start_datetime := (dget args "start_datetime").getD .null
  let end_datetime := (dget args "end_datetime").getD .null
  let timezone := (dget args "timezone").getD (.str "UTC")
  let attendees := (dget args "attendees").getD (.arr [])
  let location := (dget args "location").getD (.str "")
  let event : JObj :=
    [("summary", title), ("description", description), ("location", location),
     ("start", .obj [("dateTime", start_datetime), ("timeZone", timezone)]),
     ("end", .obj [("dateTime", end_datetime), ("timeZone", timezone)])]
  if truthy attendees then
    match pyIter attendees with
    | .ok emails => .ok (event ++ [("attendees", .arr (emails.map fun em => .obj [("email", em)]))])
    | .error e => .error e
  else .ok event

/-- Handler result: provider calls issued, and either the returned text
blocks or the exception escaping the handler. -/
abbrev HResult (κ : Type) := List κ × Except String (List TextContent)

/-- `add_event` (server.py lines 111-143). -/
def addEvent (service : Option CalService) (args : Args) : HResult CalCall :=
  match service with
  | none => ([], .ok [tc uninitCalMsg])
  | some svc =>
    match addEventBody args with
    | .error e => ([], .error e)
    | .ok event =>
      match svc.insertExec "primary" event with
      | .ok resp =>
        match dget resp "id" with
        | some idv =>
          ([.insert "primary" event],
           .ok [tc ("Event created! ID: " ++ pyStr idv ++ "\nEvent link: "
                    ++ pyStr ((dget resp "htmlLink").getD (.str "N/A")))])
        | none => ([.insert "primary" event], .ok [tc "Failed to create event: KeyError: id"])
      | .error e => ([.insert "primary" event], .ok [tc ("Failed to create event: " ++ e)])

/-- The per-event formatting loop of `list_events` (lines 163-166);
`KeyError`s from missing `start`/`summary`/`id` propagate to the
handler's `try`. -/
def formatEvents : List JVal → Except String (List String)
  | [] => .ok []
  | ev :: rest => do
    let startv ← jIndex ev "start"
    let startDefault ← jGetD startv "date" .null
    let startDate ← jGetD startv "dateTime" startDefault
    let summary ← jIndex ev "summary"
    let idv ← jIndex ev "id"
    let restLines ← formatEvents rest
    .ok (("- " ++ pyStr summary ++ " (" ++ pyStr startDate ++ ") - ID: " ++ pyStr idv) :: restLines)

/-- `list_events` (lines 145-172).  `nowIso` is the value of
`datetime.utcnow().isoformat() + 'Z'` at call time. -/
def listEvents (service : Option CalService) (nowIso : String) (args : Args) : HResult CalCall :=
  match service with
  | none => ([], .ok [tc uninitCalMsg])
  | some svc =>
    let max_results := (dget args "max_results").getD (.int 10)
    let time_min := (dget args "time_min").getD (.str nowIso)
    let time_max := (dget args "time_max").getD .null
    let calls := [CalCall.list time_min time_max max_results]
    match svc.listExec time_min time_max max_results with
    | .error e => (calls, .ok [tc ("Failed to list events: " ++ e)])
    | .ok resp =>
      let events := (dget resp "items").getD (.arr [])
      if truthy events = false then (calls, .ok [tc "No upcoming events found."])
      else
        match pyIter events with
        | .error e => (calls, .ok [tc ("Failed to list events: " ++ e)])
        | .ok evs =>
          match formatEvents evs with
          | .ok eventList =>
            (calls, .ok [tc ("Upcoming events:\n" ++ String.intercalate "\n" eventList)])
          | .error e => (calls, .ok [tc ("Failed to list events: " ++ e)])

/-- One `if key in args: event[field]['dateTime'] = args[key]` block of
`update_event` (lines 184-187, for `start_datetime`/`start` and
`end_datetime`/`end`): raises `KeyError` when the fetched event lacks
the nested field, `TypeError` when it is not a dict. -/
def applyDTUpdate (key field : String) (args : Args) (event : JObj) : Except String JObj :=
  match dget args key with
  | some s =>
    match dget event field with
    | some (.obj so) => .ok (dset event field (.obj (dset so "dateTime" s)))
    | some _ => .error "TypeError: value does not support item assignment"
    | none => .error ("KeyError: " ++ field)
  | none => .ok event

/-- `if 'title' in args: event['summary'] = args['title']` (lines 180-181). -/
def applyTitleUpdate (args : Args) (event : JObj) : JObj :=
  match dget args "title" with
  | some t => dset event "summary" t
  | none => event

/-- `if 'description' in args: event['description'] = args['description']`
(lines 182-183). -/
def applyDescriptionUpdate (args : Args) (event : JObj) : JObj :=
  match dget args "description" with
  | some d => dset event "description" d
  | none => event

/-- The merge step of `update_event` (lines 180-187): overwrite `summary`,
`description`, `start.dateTime`, `end.dateTime` exactly when the
corresponding argument key is present. -/
def updateEventBody (args : Args) (event : JObj) : Except String JObj :=
  match applyDTUpdate "start_datetime" "start" args
      (applyDescriptionUpdate args (applyTitleUpdate args event)) with
  | .ok ev3 => applyDTUpdate "end_datetime" "end" args ev3
  | .error e => .error e

/-- `update_event` (lines 174-191): fetch, merge, write back. -/
def updateEvent (service : Option CalService) (args : Args) : HResult CalCall :=
  match service with
  | none => ([], .ok [tc uninitCalMsg])
  | some svc =>
    let event_id := (dget args "event_id").getD .null
    match svc.getExec "primary" event_id with
    | .error e => ([.get "primary" event_id], .ok [tc ("Failed to update event: " ++ e)])
    | .ok event =>
      match updateEventBody args event with
      | .error e => ([.get "primary" event_id], .ok [tc ("Failed to update event: " ++ e)])
      | .ok merged =>
        match svc.updateExec "primary" event_id merged with
        | .ok upd =>
          match dget upd "id" with
          | some idv =>
            ([.get "primary" event_id, .update "primary" event_id merged],
             .ok [tc ("Event updated! ID: " ++ pyStr idv)])
          | none =>
            ([.get "primary" event_id, .update "primary" event_id merged],
             .ok [tc "Failed to update event: KeyError: id"])
        | .error e =>
          ([.get "primary" event_id, .update "primary" event_id merged],
           .ok [tc ("Failed to update event: " ++ e)])

/-- `delete_event` (lines 193-201). -/
def deleteEvent (service : Option CalService) (args : Args) : HResult CalCall :=
  match service with
  | none => ([], .ok [tc uninitCalMsg])
  | some svc =>
    let event_id := (dget args "event_id").getD .null
    match svc.deleteExec "primary" event_id with
    | .ok _ => ([.delete "primary" event_id], .ok [tc ("Event " ++ pyStr event_id ++ " deleted!")])
    | .error e => ([.delete "primary" event_id], .ok [tc ("Failed to delete event: " ++ e)])

/-- The routing inside the calendar `call_tool`'s `try` block (lines 97-107). -/
def calDispatch (service : Option CalService) (nowIso : String) (name : String) (args : Args) :
    HResult CalCall :=
  if name = "add_calendar_event" then addEvent service args
  else if name = "list_calendar_events" then listEvents service nowIso args
  else if name = "update_calendar_event" then updateEvent service args
  else if name = "delete_calendar_event" then deleteEvent service args
  else ([], .ok [tc ("Unknown tool: " ++ name)])

/-- The calendar tool dispatcher `call_tool` (lines 95-109): route, and
convert any escaping exception into an `Error: <message>` result. -/
def calCallTool (service : Option CalService) (nowIso : String) (name : String) (args : Args) :
    List CalCall × List TextContent :=
  let r := calDispatch service nowIso name args
  (r.1, match r.2 with
        | .ok res => res
        | .error e => [tc ("Error: " ++ e)])

/-! ### Email server (`email-server/server.py`) -/

/-- The MIME message built by `create_message` (lines 94-104), up to
serialization: the structure choice (multipart iff `cc or bcc`), the
attached body, and the headers set.  Serialization of this object and
its URL-safe base64 transport encoding (`{'raw': ...}`, line 104) are
external library behaviour; the body's byte-level encoding is modelled by
`sendPathBodyRaw` below. -/
structure MimeMessage where
  multipart : Bool
  body : JVal
  isHtml : Bool
  toAddr : JVal
  subject : JVal
  cc : Option JVal
  bcc : Option JVal

/-- `create_message` (lines 94-104), up to serialization. -/
def createMessage (toA subject body cc bcc is_html : JVal) : MimeMessage :=
  { multipart := truthy cc || truthy bcc
    body := body
    isHtml := truthy is_html
    toAddr := toA
    subject := subject
    cc := if truthy cc then some cc else none
    bcc := if truthy bcc then some bcc else none }

/-- A provider API request issued by the email server. -/
inductive GmailCall where
  | send (userId : String) (message : MimeMessage)
  | list (userId : String) (maxResults : JVal) (q : JVal)
  | get (userId : String) (id : JVal)

/-- The authenticated Gmail API handle, as an oracle giving each remote
call's outcome. -/
structure GmailService where
  sendExec : String → MimeMessage → Except String JObj
  listExec : String → JVal → JVal → Except String JObj
  getExec : String → JVal → Except String JObj

/-- The uninitialized-service message of the email handlers. -/
def uninitGmailMsg : String :=
  "Gmail service is not initialized. Please check authentication."

/-- `send_email` (lines 106-120): argument extraction with `or`-defaults,
message build, send. -/
def sendEmail (service : Option GmailService) (args : Args) : HResult GmailCall :=
  match service with
  | none => ([], .ok [tc uninitGmailMsg])
  | some svc =>
    let toA := pyOr ((dget args "to").getD .null) (.str "")
    let subject := pyOr ((dget args "subject").getD .null) (.str "")
    let body := pyOr ((dget args "body").getD .null) (.str "")
    let cc := pyOr ((dget args "cc").getD .null) (.str "")
    let bcc := pyOr ((dget args "bcc").getD .null) (.str "")
    let is_html := (dget args "is_html").getD (.bool false)
    let message := createMessage toA subject body cc bcc is_html
    match svc.sendExec "me" message with
    | .ok resp =>
      match dget resp "id" with
      | some idv =>
        ([.send "me" message], .ok [tc ("Email sent successfully! Message ID: " ++ pyStr idv)])
      | none => ([.send "me" message], .ok [tc "Failed to send email: KeyError: id"])
    | .error e => ([.send "me" message], .ok [tc ("Failed to send email: " ++ e)])

/-- Scan a header list for the first entry whose `name` equals `nm` and
return its `value`, or the default string if none matches (the
`next((h['value'] for h in headers if h['name'] == nm), default)`
pattern of lines 136-138 and 151-154). -/
def findHeaderD (headers : List JVal) (nm : String) (dflt : String) : Except String JVal :=
  match headers with
  | [] => .ok (.str dflt)
  | h :: rest => do
    let hn ← jIndex h "name"
    if jeq hn (.str nm) then jIndex h "value"
    else findHeaderD rest nm dflt

/-- The per-message loop of `list_emails` (lines 133-139): one metadata
fetch per message, then one summary line per message. -/
def listEmailsLoop (svc : GmailService) : List JVal → List GmailCall × Except String (List String)
  | [] => ([], .ok [])
  | m :: rest =>
    match jIndex m "id" with
    | .error e => ([], .error e)
    | .ok mid =>
      match svc.getExec "me" mid with
      | .error e => ([.get "me" mid], .error e)
      | .ok message =>
        let line : Except String String := do
          let payload ← jIndex (.obj message) "payload"
          let headers ← jGetD payload "headers" (.arr [])
          let hs ← pyIter headers
          let subject ← findHeaderD hs "Subject" "(No Subject)"
          let from_addr ← findHeaderD hs "From" "(Unknown Sender)"
          let date ← findHeaderD hs "Date" "(No Date)"
          pure ("- " ++ pyStr subject ++ " | From: " ++ pyStr from_addr
                ++ " | Date: " ++ pyStr date ++ " | ID: " ++ pyStr mid)
        match line with
        | .error e => ([.get "me" mid], .error e)
        | .ok l =>
          let r := listEmailsLoop svc rest
          (.get "me" mid :: r.1, r.2.map (l :: ·))

/-- `list_emails` (lines 122-142). -/
def listEmails (service : Option GmailService) (args : Args) : HResult GmailCall :=
  match service with
  | none => ([], .ok [tc uninitGmailMsg])
  | some svc =>
    let max_results := (dget args "max_results").getD (.int 10)
    let query := (dget args "query").getD (.str "")
    let listCall := GmailCall.list "me" max_results query
    match svc.listExec "me" max_results query with
    | .error e => ([listCall], .ok [tc ("Failed to list emails: " ++ e)])
    | .ok results =>
      let messages := (dget results "messages").getD (.arr [])
      if truthy messages = false then ([listCall], .ok [tc "No emails found."])
      else
        match pyIter messages with
        | .error e => ([listCall], .ok [tc ("Failed to list emails: " ++ e)])
        | .ok msgs =>
          match listEmailsLoop svc msgs with
          | (gcalls, .ok emailList) =>
            (listCall :: gcalls,
             .ok [tc ("Recent emails:\n" ++ String.intercalate "\n" emailList)])
          | (gcalls, .error e) =>
            (listCall :: gcalls, .ok [tc ("Failed to list emails: " ++ e)])

/-- The URL-safe base64 decode + UTF-8 decode applied to a body part's
`data` (lines 161 and 166). -/
def decodeBodyData : JVal → Except String String
  | .str s =>
    match b64DecodeList s.data with
    | some bs =>
      match utf8DecodeStr bs with
      | some t => .ok t
      | none => .error "UnicodeDecodeError: utf-8 codec cannot decode"
    | none => .error "binascii.Error: invalid base64-encoded string"
  | _ => .error "TypeError: argument should be a bytes-like object or ASCII string"

/-- The scan over the direct entries of `payload['parts']` (lines 158-162):
the first part with `mimeType == 'text/plain'` supplies the body and the
loop breaks; if none matches the body stays `""`. -/
def scanParts : List JVal → Except String String
  | [] => pure ""
  | p :: rest => do
    let mt ← jIndex p "mimeType"
    if jeq mt (.str "text/plain") then
      let bodyv ← jIndex p "body"
      let data ← jIndex bodyv "data"
      decodeBodyData data
    else scanParts rest

/-- The body extraction of `get_email` (lines 155-166): if the payload has
a `parts` key, scan its direct parts; otherwise use the top-level body
when the top-level `mimeType` is `text/plain`, else leave the body `""`. -/
def extractBody (payload : JVal) : Except String String := do
  if (← pyContains "parts" payload) then
    let parts ← jIndex payload "parts"
    let ps ← pyIter parts
    scanParts ps
  else
    let mt ← jIndex payload "mimeType"
    if jeq mt (.str "text/plain") then
      let bodyv ← jIndex payload "body"
      let data ← jIndex bodyv "data"
      decodeBodyData data
    else pure ""

/-- `get_email` (lines 144-177). -/
def getEmail (service : Option GmailService) (args : Args) : HResult GmailCall :=
  match service with
  | none => ([], .ok [tc uninitGmailMsg])
  | some svc =>
    let message_id := (dget args "message_id").getD .null
    match svc.getExec "me" message_id with
    | .error e => ([.get "me" message_id], .ok [tc ("Failed to get email: " ++ e)])
    | .ok message =>
      let details : Except String String := do
        let payload ← jIndex (.obj message) "payload"
        let headers ← jGetD payload "headers" (.arr [])
        let hs ← pyIter headers
        let subject ← findHeaderD hs "Subject" "(No Subject)"
        let from_addr ← findHeaderD hs "From" "(Unknown Sender)"
        let to_addr ← findHeaderD hs "To" "(No Recipient)"
        let date ← findHeaderD hs "Date" "(No Date)"
        let body ← extractBody payload
        pure ("Email Details:\nSubject: " ++ pyStr subject ++ "\nFrom: " ++ pyStr from_addr
              ++ "\nTo: " ++ pyStr to_addr ++ "\nDate: " ++ pyStr date ++ "\n\nBody:\n" ++ body)
      match details with
      | .ok txt => ([.get "me" message_id], .ok [tc txt])
      | .error e => ([.get "me" message_id], .ok [tc ("Failed to get email: " ++ e)])

/-- The routing inside the email `call_tool`'s `try` block (lines 82-90). -/
def gmailDispatch (service : Option GmailService) (name : String) (args : Args) :
    HResult GmailCall :=
  if name = "send_email" then sendEmail service args
  else if name = "list_emails" then listEmails service args
  else if name = "get_email" then getEmail service args
  else ([], .ok [tc ("Unknown tool: " ++ name)])

/-- The email tool dispatcher `call_tool` (lines 80-92). -/
def gmailCallTool (service : Option GmailService) (name : String) (args : Args) :
    List GmailCall × List TextContent :=
  let r := gmailDispatch service name args
  (r.1, match r.2 with
        | .ok res => res
        | .error e => [tc ("Error: " ++ e)])

/-- `initialize_service` (calendar lines 27-32, email lines 29-34):
load the token-file credentials (`fromAuthorizedUserFile` is the load's
outcome; the call is not wrapped in any `try`) and build the service
handle from them. -/
def initializeService (A B : Type) (fromAuthorizedUserFile : Except String A) (build : A → B) :
    Except String (Option B) :=
  match fromAuthorizedUserFile with
  | .ok creds => .ok (some (build creds))
  | .error e => .error e

/-! ### Dictionary lemmas -/

theorem dget_dset (d : JObj) (k q : String) (v : JVal) :
    dget (dset d k v) q = if k = q then some v else dget d q := by
  induction d with
  | nil =>
    by_cases h : k = q <;> simp [dget, dset, h]
  | cons hd tl ih =>
    obtain ⟨k1, v1⟩ := hd
    by_cases h1 : k1 = k <;> by_cases h2 : k1 = q <;> by_cases h3 : k = q <;>
      simp_all [dget, dset]

theorem applyDTUpdate_dget_other (key field : String) (args : Args) (event ev' : JObj)
    (h : applyDTUpdate key field args event = .ok ev') :
    ∀ k, k ≠ field → dget ev' k = dget event k := by
  intro k hk
  unfold applyDTUpdate at h
  rcases ha : dget args key with _ | s <;> rw [ha] at h
  · cases h; rfl
  · rcases hf : dget event field with _ | fv <;> rw [hf] at h
    · cases h
    · cases fv with
      | obj so =>
        injection h with h
        subst h
        rw [dget_dset, if_neg (fun h2 : field = k => hk h2.symm)]
      | null => cases h
      | str a => cases h
      | int a => cases h
      | bool a => cases h
      | arr a => cases h

theorem applyDTUpdate_absent (key field : String) (args : Args) (event : JObj)
    (h : dget args key = none) : applyDTUpdate key field args event = .ok event := by
  unfold applyDTUpdate
  rw [h]

theorem applyTitleUpdate_dget_other (args : Args) (event : JObj) :
    ∀ k, k ≠ "summary" → dget (applyTitleUpdate args event) k = dget event k := by
  intro k hk
  unfold applyTitleUpdate
  rcases dget args "title" with _ | t
  · rfl
  · rw [dget_dset, if_neg (fun h2 : "summary" = k => hk h2.symm)]

theorem applyDescriptionUpdate_dget_other (args : Args) (event : JObj) :
    ∀ k, k ≠ "description" → dget (applyDescriptionUpdate args event) k = dget event k := by
  intro k hk
  unfold applyDescriptionUpdate
  rcases dget args "description" with _ | d
  · rfl
  · rw [dget_dset, if_neg (fun h2 : "description" = k => hk h2.symm)]

theorem applyTitleUpdate_absent (args : Args) (event : JObj)
    (h : dget args "title" = none) : applyTitleUpdate args event = event := by
  unfold applyTitleUpdate
  rw [h]

theorem applyDescriptionUpdate_absent (args : Args) (event : JObj)
    (h : dget args "description" = none) : applyDescriptionUpdate args event = event := by
  unfold applyDescriptionUpdate
  rw [h]

theorem applyTitleUpdate_present (args : Args) (event : JObj) (t : JVal)
    (h : dget args "title" = some t) :
    dget (applyTitleUpdate args event) "summary" = some t := by
  unfold applyTitleUpdate
  rw [h, dget_dset, if_pos rfl]

theorem applyDescriptionUpdate_present (args : Args) (event : JObj) (d : JVal)
    (h : dget args "description" = some d) :
    dget (applyDescriptionUpdate args event) "description" = some d := by
  unfold applyDescriptionUpdate
  rw [h, dget_dset, if_pos rfl]

/-- C3: a successful `update_event` merge differs from the fetched event
resource only at the fields named by the present argument keys
(`title` → `summary`, `description` → `description`,
`start_datetime` → `start`, `end_datetime` → `end`); every other field,
and every field whose argument is absent, is identical to the fetched
resource's field, while present `title`/`description` arguments are
written verbatim. -/
theorem update_event_partial_update (args : Args) (event merged : JObj)
    (h : updateEventBody args event = .ok merged) :
    (∀ k, k ≠ "summary" → k ≠ "description" → k ≠ "start" → k ≠ "end" →
      dget merged k = dget event k) ∧
    (dget args "title" = none → dget merged "summary" = dget event "summary") ∧
    (dget args "description" = none → dget merged "description" = dget event "description") ∧
    (dget args "start_datetime" = none → dget merged "start" = dget event "start") ∧
    (dget args "end_datetime" = none → dget merged "end" = dget event "end") ∧
    (∀ t, dget args "title" = some t → dget merged "summary" = some t) ∧
    (∀ d, dget args "description" = some d → dget merged "description" = some d) := by
  unfold updateEventBody at h
  rcases hs : applyDTUpdate "start_datetime" "start" args
      (applyDescriptionUpdate args (applyTitleUpdate args event)) with e | ev3 <;> rw [hs] at h
  · cases h
  · change applyDTUpdate "end_datetime" "end" args ev3 = Except.ok merged at h
    have hEnd := applyDTUpdate_dget_other _ _ _ _ _ h
    have hStart := applyDTUpdate_dget_other _ _ _ _ _ hs
    have hD := applyDescriptionUpdate_dget_other args (applyTitleUpdate args event)
    have hT := applyTitleUpdate_dget_other args event
    refine ⟨?_, ?_, ?_, ?_, ?_, ?_, ?_⟩
    · intro k h1 h2 h3 h4
      rw [hEnd k h4, hStart k h3, hD k h2, hT k h1]
    · intro hta
      rw [hEnd "summary" (by decide), hStart "summary" (by decide),
        hD "summary" (by decide), applyTitleUpdate_absent args event hta]
    · intro hda
      rw [hEnd "description" (by decide), hStart "description" (by decide),
        applyDescriptionUpdate_absent args (applyTitleUpdate args event) hda,
        hT "description" (by decide)]
    · intro hsa
      have hidd := applyDTUpdate_absent "start_datetime" "start" args
        (applyDescriptionUpdate args (applyTitleUpdate args event)) hsa
      rw [hidd] at hs
      injection hs with hs
      rw [hEnd "start" (by decide), ← hs, hD "start" (by decide), hT "start" (by decide)]
    · intro hea
      have hidd := applyDTUpdate_absent "end_datetime" "end" args ev3 hea
      rw [hidd] at h
      injection h with h
      rw [← h, hStart "end" (by decide), hD "end" (by decide), hT "end" (by decide)]
    · intro t htp
      rw [hEnd "summary" (by decide), hStart "summary" (by decide), hD "summary" (by decide),
        applyTitleUpdate_present args event t htp]
    · intro d hdp
      rw [hEnd "description" (by decide), hStart "description" (by decide),
        applyDescriptionUpdate_present args (applyTitleUpdate args event) d hdp]

/-- Witness for C3 at the spec's concrete instance: a fetched event with
`summary="A"`, updated with only `description="B"`, keeps `summary="A"`
and gets `description="B"`. -/
theorem update_event_partial_update_witness :
    updateEventBody [("description", JVal.str "B")] [("summary", JVal.str "A")]
      = .ok [("summary", JVal.str "A"), ("description", JVal.str "B")] ∧
    dget [("summary", JVal.str "A"), ("description", JVal.str "B")] "summary"
      = some (JVal.str "A") ∧
    dget [("summary", JVal.str "A"), ("description", JVal.str "B")] "description"
      = some (JVal.str "B") := by
  refine ⟨by rfl, ?_, ?_⟩
  · exact (update_event_partial_update [("description", JVal.str "B")] [("summary", JVal.str "A")]
      [("summary", JVal.str "A"), ("description", JVal.str "B")] (by rfl)).2.1 (by rfl)
  · exact (update_event_partial_update [("description", JVal.str "B")] [("summary", JVal.str "A")]
      [("summary", JVal.str "A"), ("description", JVal.str "B")] (by rfl)).2.2.2.2.2.2
      (JVal.str "B") (by rfl)

/-! ### Base64 round-trip -/

theorem b64Val_b64Char : ∀ n, n < 64 → b64Val (b64Char n) = some n ∧ b64Char n ≠ '=' := by
  decide

theorem b64DecodeList_b64EncodeList (bs : List Nat) (h : ∀ b ∈ bs, b < 256) :
    b64DecodeList (b64EncodeList bs) = some bs := by
  induction bs using b64EncodeList.induct with
  | case1 => rfl
  | case2 a =>
    have ha : a < 256 := h a (by simp)
    have h0 := b64Val_b64Char (a / 4) (by omega)
    have h1 := b64Val_b64Char (a % 4 * 16) (by omega)
    simp only [b64EncodeList, b64DecodeList, h0.1, h1.1, if_pos rfl, and_self, if_true]
    simp
    all_goals omega
  | case3 a b =>
    have ha : a < 256 := h a (by simp)
    have hb : b < 256 := h b (by simp)
    have h0 := b64Val_b64Char (a / 4) (by omega)
    have h1 := b64Val_b64Char (a % 4 * 16 + b / 16) (by omega)
    have h2 := b64Val_b64Char (b % 16 * 4) (by omega)
    simp only [b64EncodeList, b64DecodeList, h0.1, h1.1, h2.1, if_neg h2.2, if_pos rfl]
    simp
    all_goals omega
  | case4 a b c rest ih =>
    have ha : a < 256 := h a (by simp)
    have hb : b < 256 := h b (by simp)
    have hc : c < 256 := h c (by simp)
    have h0 := b64Val_b64Char (a / 4) (by omega)
    have h1 := b64Val_b64Char (a % 4 * 16 + b / 16) (by omega)
    have h2 := b64Val_b64Char (b % 16 * 4 + c / 64) (by omega)
    have h3 := b64Val_b64Char (c % 64) (by omega)
    have ih2 := ih (fun x hx => h x (by simp [hx]))
    simp only [b64EncodeList, b64DecodeList, h0.1, h1.1, h2.1, h3.1,
      if_neg h2.2, if_neg h3.2, ih2, Option.map_some]
    simp
    all_goals omega


/-! ### UTF-8 round-trip -/

theorem utf8Step_encodeChar (c : Nat) (hv : Nat.isValidChar c) (rest : List Nat) :
    utf8Step (utf8EncodeChar c ++ rest) = some (c, rest) := by
  have hv2 : c < 55296 ∨ (57343 < c ∧ c < 1114112) := hv
  by_cases h1 : c < 0x80
  · have e : utf8EncodeChar c = [c] := by rw [utf8EncodeChar, if_pos h1]
    rw [e]
    simp only [List.cons_append, List.nil_append]
    rw [utf8Step, if_pos h1]
  · by_cases h2 : c < 0x800
    · have e : utf8EncodeChar c = [0xC0 + c / 64, 0x80 + c % 64] := by
        rw [utf8EncodeChar, if_neg h1, if_pos h2]
      rw [e]
      simp only [List.cons_append, List.nil_append]
      rw [utf8Step, if_neg (by omega), if_neg (by omega), if_pos (by omega)]
      rw [utf8Cont1, if_pos (by omega)]
      have ec : (0xC0 + c / 64 - 0xC0) * 64 + (0x80 + c % 64 - 0x80) = c := by omega
      rw [ec]
    · by_cases h3 : c < 0x10000
      · have e : utf8EncodeChar c = [0xE0 + c / 4096, 0x80 + c / 64 % 64, 0x80 + c % 64] := by
          rw [utf8EncodeChar, if_neg h1, if_neg h2, if_pos h3]
        rw [e]
        simp only [List.cons_append, List.nil_append]
        rw [utf8Step, if_neg (by omega), if_neg (by omega), if_neg (by omega),
          if_pos (by omega)]
        rw [utf8Cont2, if_pos (by omega)]
        simp only []
        have ec : (0xE0 + c / 4096 - 0xE0) * 4096 + (0x80 + c / 64 % 64 - 0x80) * 64
            + (0x80 + c % 64 - 0x80) = c := by omega
        rw [ec, if_neg (by omega)]
      · have e : utf8EncodeChar c = [0xF0 + c / 262144, 0x80 + c / 4096 % 64,
            0x80 + c / 64 % 64, 0x80 + c % 64] := by
          rw [utf8EncodeChar, if_neg h1, if_neg h2, if_neg h3]
        rw [e]
        simp only [List.cons_append, List.nil_append]
        rw [utf8Step, if_neg (by omega), if_neg (by omega), if_neg (by omega),
          if_neg (by omega), if_pos (by omega)]
        rw [utf8Cont3, if_pos (by omega)]
        simp only []
        have ec : (0xF0 + c / 262144 - 0xF0) * 262144 + (0x80 + c / 4096 % 64 - 0x80) * 4096
            + (0x80 + c / 64 % 64 - 0x80) * 64 + (0x80 + c % 64 - 0x80) = c := by omega
        rw [ec, if_neg (by omega)]

theorem utf8EncodeChar_ne_nil (c : Nat) : utf8EncodeChar c ≠ [] := by
  unfold utf8EncodeChar
  split_ifs <;> simp

theorem utf8DecodeCps_encodeChar (c : Nat) (hv : Nat.isValidChar c) (rest : List Nat) :
    utf8DecodeCps (utf8EncodeChar c ++ rest) = (utf8DecodeCps rest).map (c :: ·) := by
  have hstep := utf8Step_encodeChar c hv rest
  cases he : utf8EncodeChar c with
  | nil => exact absurd he (utf8EncodeChar_ne_nil c)
  | cons b bs =>
    rw [he] at hstep
    simp only [List.cons_append] at hstep ⊢
    rw [utf8DecodeCps, hstep]

theorem utf8DecodeCps_utf8Encode (cs : List Char) :
    utf8DecodeCps ((cs.map fun ch => utf8EncodeChar ch.toNat).flatten)
      = some (cs.map Char.toNat) := by
  induction cs with
  | nil =>
    simp only [List.map_nil, List.flatten_nil]
    rw [utf8DecodeCps]
  | cons ch rest ih =>
    have hv : Nat.isValidChar ch.toNat := ch.valid
    simp only [List.map_cons, List.flatten_cons]
    rw [utf8DecodeCps_encodeChar ch.toNat hv, ih]
    simp

/-- Decoding the UTF-8 encoding of any string gives back the string. -/
theorem utf8DecodeStr_utf8Encode (s : String) : utf8DecodeStr (utf8Encode s) = some s := by
  rw [utf8DecodeStr, utf8Encode, utf8DecodeCps_utf8Encode]
  show some (String.mk ((s.data.map Char.toNat).map Char.ofNat)) = some s
  rw [List.map_map]
  have e : (Char.ofNat ∘ Char.toNat) = id := by
    funext c
    exact Char.ofNat_toNat c
  rw [e, List.map_id]

theorem utf8EncodeChar_lt_256 (c : Nat) (hv : Nat.isValidChar c) :
    ∀ b ∈ utf8EncodeChar c, b < 256 := by
  have hv2 : c < 55296 ∨ (57343 < c ∧ c < 1114112) := hv
  intro b hb
  unfold utf8EncodeChar at hb
  split at hb
  · simp at hb; omega
  · split at hb
    · simp at hb; rcases hb with h | h <;> omega
    · split at hb
      · simp at hb; rcases hb with h | h | h <;> omega
      · simp at hb; rcases hb with h | h | h | h <;> omega

theorem utf8Encode_lt_256 (s : String) : ∀ b ∈ utf8Encode s, b < 256 := by
  intro b hb
  unfold utf8Encode at hb
  rw [List.mem_flatten] at hb
  obtain ⟨l, hl, hbl⟩ := hb
  rw [List.mem_map] at hl
  obtain ⟨ch, _, rfl⟩ := hl
  exact utf8EncodeChar_lt_256 ch.toNat ch.valid b hbl

/-- The bytes of a message body as they are encoded on the send path:
`create_message` attaches the body text to the MIME message, whose
serialized bytes (containing the body's UTF-8 bytes) are URL-safe
base64-encoded (line 104).  The MIME envelope and the provider's
round-trip of the stored message are external and byte-faithful to the
body, so the body's own journey is
`base64.urlsafe_b64encode(body.encode('utf-8'))`. -/
def sendPathBodyRaw (body : String) : String := b64urlEncode (utf8Encode body)

/-- C6: for every body string, including multi-byte text, encoding on the
send path (URL-safe base64 of the message body's UTF-8 bytes, as in
`create_message`) and decoding on the get path (`get_email`'s URL-safe
base64 decode followed by UTF-8 decode, `decodeBodyData`) reproduces the
original body exactly; in particular `get_email`'s body extraction on a
single-part text/plain payload carrying the encoded data returns the
original body. -/
theorem decodeBodyData_sendPathBodyRaw (body : String) :
    decodeBodyData (JVal.str (sendPathBodyRaw body)) = .ok body := by
  have h1 : b64DecodeList (sendPathBodyRaw body).data = some (utf8Encode body) :=
    b64DecodeList_b64EncodeList (utf8Encode body) (utf8Encode_lt_256 body)
  simp only [decodeBodyData, h1, utf8DecodeStr_utf8Encode]

theorem send_get_body_roundtrip (body : String) :
    decodeBodyData (JVal.str (sendPathBodyRaw body)) = .ok body ∧
    extractBody (.obj [("mimeType", .str "text/plain"),
      ("body", .obj [("data", .str (sendPathBodyRaw body))])]) = .ok body := by
  have hmain : decodeBodyData (JVal.str (sendPathBodyRaw body)) = .ok body :=
    decodeBodyData_sendPathBodyRaw body
  refine ⟨hmain, ?_⟩
  simp only [extractBody, pyContains, dget, jIndex, jeq, pyIter]
  simp [bind, Except.bind, pure, Except.pure, jeq, dget, hmain]

/-! ### Dispatcher-level properties -/

/-- C9: a tool call whose name matches no catalog entry yields the single
text block `Unknown tool: <name>`, raises nothing, and runs no handler:
the result is the same for every service handle and argument map, and no
provider call is issued. -/
theorem unknown_tool_dispatch (csvc : Option CalService) (gsvc : Option GmailService)
    (nowIso name : String) (args args2 : Args)
    (h1 : name ≠ "add_calendar_event") (h2 : name ≠ "list_calendar_events")
    (h3 : name ≠ "update_calendar_event") (h4 : name ≠ "delete_calendar_event")
    (h5 : name ≠ "send_email") (h6 : name ≠ "list_emails") (h7 : name ≠ "get_email") :
    calCallTool csvc nowIso name args = ([], [tc ("Unknown tool: " ++ name)]) ∧
    gmailCallTool gsvc name args2 = ([], [tc ("Unknown tool: " ++ name)]) := by
  unfold calCallTool calDispatch gmailCallTool gmailDispatch
  rw [if_neg h1, if_neg h2, if_neg h3, if_neg h4, if_neg h5, if_neg h6, if_neg h7]
  exact ⟨rfl, rfl⟩

/-- Witness for C9 at the spec's concrete name `frobnicate`. -/
theorem unknown_tool_dispatch_witness :
    calCallTool none "2024-01-01T00:00:00Z" "frobnicate" []
      = ([], [tc "Unknown tool: frobnicate"]) ∧
    gmailCallTool none "frobnicate" [] = ([], [tc "Unknown tool: frobnicate"]) :=
  unknown_tool_dispatch none none "2024-01-01T00:00:00Z" "frobnicate" [] []
    (by decide) (by decide) (by decide) (by decide) (by decide) (by decide) (by decide)

/-- The handler result carries one text block unless an exception escapes. -/
def resOk1 : Except String (List TextContent) → Prop
  | .ok l => l.length = 1
  | .error _ => True

theorem resOk1_addEvent (svc : Option CalService) (args : Args) :
    resOk1 (addEvent svc args).2 := by
  unfold addEvent
  repeat' split
  all_goals simp [resOk1]

theorem resOk1_listEvents (svc : Option CalService) (nowIso : String) (args : Args) :
    resOk1 (listEvents svc nowIso args).2 := by
  unfold listEvents
  simp only []
  repeat' split
  all_goals simp [resOk1]

theorem resOk1_updateEvent (svc : Option CalService) (args : Args) :
    resOk1 (updateEvent svc args).2 := by
  unfold updateEvent
  simp only []
  repeat' split
  all_goals simp [resOk1]

theorem resOk1_deleteEvent (svc : Option CalService) (args : Args) :
    resOk1 (deleteEvent svc args).2 := by
  unfold deleteEvent
  simp only []
  repeat' split
  all_goals simp [resOk1]

theorem resOk1_sendEmail (svc : Option GmailService) (args : Args) :
    resOk1 (sendEmail svc args).2 := by
  unfold sendEmail
  simp only []
  repeat' split
  all_goals simp [resOk1]

theorem resOk1_listEmails (svc : Option GmailService) (args : Args) :
    resOk1 (listEmails svc args).2 := by
  unfold listEmails
  simp only []
  repeat' split
  all_goals simp [resOk1]

theorem resOk1_getEmail (svc : Option GmailService) (args : Args) :
    resOk1 (getEmail svc args).2 := by
  unfold getEmail
  simp only []
  repeat' split
  all_goals simp [resOk1]

theorem resOk1_calDispatch (svc : Option CalService) (nowIso name : String) (args : Args) :
    resOk1 (calDispatch svc nowIso name args).2 := by
  unfold calDispatch
  repeat' split
  · exact resOk1_addEvent svc args
  · exact resOk1_listEvents svc nowIso args
  · exact resOk1_updateEvent svc args
  · exact resOk1_deleteEvent svc args
  · simp [resOk1]

theorem resOk1_gmailDispatch (svc : Option GmailService) (name : String) (args : Args) :
    resOk1 (gmailDispatch svc name args).2 := by
  unfold gmailDispatch
  repeat' split
  · exact resOk1_sendEmail svc args
  · exact resOk1_listEmails svc args
  · exact resOk1_getEmail svc args
  · simp [resOk1]

/-- C10: on every path (success, handler failure, dispatcher catch,
unknown tool, uninitialized service) both dispatchers return exactly one
text content block: never zero, never more than one. -/
theorem tool_result_single_block (csvc : Option CalService) (gsvc : Option GmailService)
    (nowIso name name2 : String) (args args2 : Args) :
    (calCallTool csvc nowIso name args).2.length = 1 ∧
    (gmailCallTool gsvc name2 args2).2.length = 1 := by
  constructor
  · have h := resOk1_calDispatch csvc nowIso name args
    unfold calCallTool
    rcases hr : (calDispatch csvc nowIso name args).2 with e | res
    · simp [hr]
    · rw [hr] at h
      simpa [hr, resOk1] using h
  · have h := resOk1_gmailDispatch gsvc name2 args2
    unfold gmailCallTool
    rcases hr : (gmailDispatch gsvc name2 args2).2 with e | res
    · simp [hr]
    · rw [hr] at h
      simpa [hr, resOk1] using h

/-- C2 counterexample: when the credential token load fails (file
missing/malformed/insufficient scopes), `initialize_service` does not
leave the handle unset — the failure propagates out of initialization. -/
theorem initialize_service_raises_cex :
    initializeService Unit Unit (Except.error "FileNotFoundError: token.json") (fun c => c)
      ≠ Except.ok none := by
  simp [initializeService]

/-- C2 amended: a failing credential load propagates out of
`initialize_service` (startup raises; the handle is never silently left
unset by it); nevertheless, whenever the service handle is unset, every
handler of both servers returns exactly the uninitialized-service text
and issues no provider API call. -/
theorem uninitialized_service_behavior :
    (∀ (A B : Type) (e : String) (build : A → B),
      initializeService A B (.error e) build = .error e) ∧
    (∀ args, addEvent none args = ([], .ok [tc uninitCalMsg])) ∧
    (∀ nowIso args, listEvents none nowIso args = ([], .ok [tc uninitCalMsg])) ∧
    (∀ args, updateEvent none args = ([], .ok [tc uninitCalMsg])) ∧
    (∀ args, deleteEvent none args = ([], .ok [tc uninitCalMsg])) ∧
    (∀ args, sendEmail none args = ([], .ok [tc uninitGmailMsg])) ∧
    (∀ args, listEmails none args = ([], .ok [tc uninitGmailMsg])) ∧
    (∀ args, getEmail none args = ([], .ok [tc uninitGmailMsg])) :=
  ⟨fun _ _ _ _ => rfl, fun _ => rfl, fun _ _ => rfl, fun _ => rfl, fun _ => rfl,
   fun _ => rfl, fun _ => rfl, fun _ => rfl⟩

/-- C1: whenever the routed handler lets a failure escape, the dispatcher
returns exactly one `Error: <message>` text block; by the dispatchers'
total return type no exception propagates past them. -/
theorem dispatcher_error_boundary (csvc : Option CalService) (gsvc : Option GmailService)
    (nowIso name name2 : String) (args args2 : Args) (e e2 : String) :
    ((calDispatch csvc nowIso name args).2 = .error e →
      (calCallTool csvc nowIso name args).2 = [tc ("Error: " ++ e)]) ∧
    ((gmailDispatch gsvc name2 args2).2 = .error e2 →
      (gmailCallTool gsvc name2 args2).2 = [tc ("Error: " ++ e2)]) := by
  constructor
  · intro h
    unfold calCallTool
    simp only []
    rw [h]
  · intro h
    unfold gmailCallTool
    simp only []
    rw [h]

/-- A calendar provider oracle whose every remote call raises. -/
def calOracleErr : CalService :=
  { insertExec := fun _ _ => .error "HttpError 500"
    listExec := fun _ _ _ => .error "HttpError 500"
    getExec := fun _ _ => .error "HttpError 500"
    updateExec := fun _ _ _ => .error "HttpError 500"
    deleteExec := fun _ _ => .error "HttpError 500" }

/-- Witness for C1: `add_calendar_event` with a non-iterable `attendees`
value raises outside the handler's own `try`, and the dispatcher turns it
into the `Error: <message>` block. -/
theorem dispatcher_error_boundary_witness :
    (calCallTool (some calOracleErr) "2024-01-01T00:00:00Z" "add_calendar_event"
      [("attendees", JVal.int 5)]).2
      = [tc ("Error: " ++ "TypeError: int object is not iterable")] :=
  (dispatcher_error_boundary (some calOracleErr) none "2024-01-01T00:00:00Z"
    "add_calendar_event" "x" [("attendees", JVal.int 5)] []
    "TypeError: int object is not iterable" "y").1 rfl

/-- A Gmail provider oracle that acknowledges sends and lists nothing. -/
def gmailOracleOk : GmailService :=
  { sendExec := fun _ _ => .ok [("id", .str "msg-1")]
    listExec := fun _ _ _ => .ok []
    getExec := fun _ _ => .error "HttpError 404" }

/-- C5 counterexample: `send_email` called without the required `to`
argument does not validate presence before building the provider
request — it builds the message with `to=""` and issues the send. -/
theorem send_email_no_validation_cex :
    (sendEmail (some gmailOracleOk) [("subject", JVal.str "s"), ("body", JVal.str "b")]).1
      = [GmailCall.send "me"
          { multipart := false, body := .str "b", isHtml := false, toAddr := .str "",
            subject := .str "s", cc := none, bcc := none }] := by rfl

/-- C5 amended: the handlers perform no presence validation of required
arguments; missing required arguments are silently defaulted (`""` via
`or` in `send_email`, `None` for `add_calendar_event`'s title) and
exactly one provider request is still built and issued
(for `add_calendar_event`, whenever the `attendees` argument is absent). -/
theorem handlers_no_presence_validation (gsvc : GmailService) (csvc : CalService)
    (args cargs : Args) (hatt : dget cargs "attendees" = none) :
    (∃ m : MimeMessage, (sendEmail (some gsvc) args).1 = [GmailCall.send "me" m] ∧
      (dget args "to" = none → m.toAddr = .str "")) ∧
    (∃ b : JObj, (addEvent (some csvc) cargs).1 = [CalCall.insert "primary" b] ∧
      (dget cargs "title" = none → dget b "summary" = some JVal.null)) := by
  constructor
  · refine ⟨createMessage (pyOr ((dget args "to").getD .null) (.str ""))
      (pyOr ((dget args "subject").getD .null) (.str ""))
      (pyOr ((dget args "body").getD .null) (.str ""))
      (pyOr ((dget args "cc").getD .null) (.str ""))
      (pyOr ((dget args "bcc").getD .null) (.str ""))
      ((dget args "is_html").getD (.bool false)), ?_, ?_⟩
    · unfold sendEmail
      simp only []
      repeat' split
      all_goals rfl
    · intro hto
      simp [createMessage, pyOr, hto, truthy]
  · refine ⟨[("summary", (dget cargs "title").getD .null),
      ("description", (dget cargs "description").getD (.str "")),
      ("location", (dget cargs "location").getD (.str "")),
      ("start", .obj [("dateTime", (dget cargs "start_datetime").getD .null),
        ("timeZone", (dget cargs "timezone").getD (.str "UTC"))]),
      ("end", .obj [("dateTime", (dget cargs "end_datetime").getD .null),
        ("timeZone", (dget cargs "timezone").getD (.str "UTC"))])], ?_, ?_⟩
    · have hbody : addEventBody cargs = .ok [("summary", (dget cargs "title").getD .null),
        ("description", (dget cargs "description").getD (.str "")),
        ("location", (dget cargs "location").getD (.str "")),
        ("start", .obj [("dateTime", (dget cargs "start_datetime").getD .null),
          ("timeZone", (dget cargs "timezone").getD (.str "UTC"))]),
        ("end", .obj [("dateTime", (dget cargs "end_datetime").getD .null),
          ("timeZone", (dget cargs "timezone").getD (.str "UTC"))])] := by
        unfold addEventBody
        rw [hatt]
        rfl
      unfold addEvent
      simp only [hbody]
      repeat' split
      all_goals rfl
    · intro hti
      simp [dget, hti]

/-- Witness for C5's amended claim: with `to` absent entirely, the send
request is still issued, carrying `to=""`. -/
theorem handlers_no_presence_validation_witness :
    ∃ m, (sendEmail (some gmailOracleOk) []).1 = [GmailCall.send "me" m] ∧
      m.toAddr = JVal.str "" := by
  obtain ⟨⟨m, hm, hto⟩, _⟩ :=
    handlers_no_presence_validation gmailOracleOk calOracleErr [] [] rfl
  exact ⟨m, hm, hto rfl⟩

theorem addEventBody_no_attendees_arg (args : Args) (hatt : dget args "attendees" = none) :
    addEventBody args = .ok [("summary", (dget args "title").getD .null),
      ("description", (dget args "description").getD (.str "")),
      ("location", (dget args "location").getD (.str "")),
      ("start", .obj [("dateTime", (dget args "start_datetime").getD .null),
        ("timeZone", (dget args "timezone").getD (.str "UTC"))]),
      ("end", .obj [("dateTime", (dget args "end_datetime").getD .null),
        ("timeZone", (dget args "timezone").getD (.str "UTC"))])] := by
  unfold addEventBody
  rw [hatt]
  rfl

/-- C7: the `add_calendar_event` request body built with `attendees=[]`
equals the one built with `attendees` omitted; in both cases the built
body has no `attendees` field, and a body only ever carries an
`attendees` field when the supplied attendees value is truthy
(a non-empty list). -/
theorem add_event_attendees_empty_eq_omitted (args : Args)
    (hatt : dget args "attendees" = none) :
    addEventBody (("attendees", JVal.arr []) :: args) = addEventBody args ∧
    (∃ b, addEventBody args = .ok b ∧ dget b "attendees" = none) ∧
    (∀ args2 b, addEventBody args2 = .ok b → dget b "attendees" ≠ none →
      truthy ((dget args2 "attendees").getD (.arr [])) = true) := by
  refine ⟨?_, ?_, ?_⟩
  · rw [addEventBody_no_attendees_arg args hatt]
    have hc : ∀ k, k ≠ "attendees" →
        dget (("attendees", JVal.arr []) :: args) k = dget args k := by
      intro k hk
      simp only [dget, if_neg (fun h2 : "attendees" = k => hk h2.symm)]
    have hcons : dget (("attendees", JVal.arr []) :: args) "attendees" = some (JVal.arr []) := by
      simp [dget]
    unfold addEventBody
    rw [hcons, hc "title" (by decide), hc "description" (by decide),
      hc "start_datetime" (by decide), hc "end_datetime" (by decide),
      hc "timezone" (by decide), hc "location" (by decide)]
    rfl
  · refine ⟨_, addEventBody_no_attendees_arg args hatt, ?_⟩
    simp [dget]
  · intro args2 b hb hne
    unfold addEventBody at hb
    simp only [] at hb
    split at hb
    · assumption
    · injection hb with hb
      apply absurd _ hne
      rw [← hb]
      simp [dget]

/-- Witness for C7 at a concrete argument map. -/
theorem add_event_attendees_empty_eq_omitted_witness :
    addEventBody [("attendees", JVal.arr []), ("title", JVal.str "T")]
      = addEventBody [("title", JVal.str "T")] ∧
    ∃ b, addEventBody [("title", JVal.str "T")] = .ok b ∧ dget b "attendees" = none := by
  obtain ⟨h1, h2, _⟩ := add_event_attendees_empty_eq_omitted [("title", JVal.str "T")] rfl
  exact ⟨h1, h2⟩

/-- C8: when the provider returns zero items, `list_calendar_events` /
`list_emails` return exactly one explicit no-results text block, never an
empty block list. -/
theorem empty_provider_results (csvc : CalService) (gsvc : GmailService)
    (nowIso : String) (args args2 : Args)
    (hc : ∀ tm tM mr, ∃ r, csvc.listExec tm tM mr = .ok r ∧
      (dget r "items").getD (.arr []) = .arr [])
    (hg : ∀ mr q, ∃ r, gsvc.listExec "me" mr q = .ok r ∧
      (dget r "messages").getD (.arr []) = .arr []) :
    (listEvents (some csvc) nowIso args).2 = .ok [tc "No upcoming events found."] ∧
    (listEmails (some gsvc) args2).2 = .ok [tc "No emails found."] := by
  constructor
  · obtain ⟨r, hr, hi⟩ := hc ((dget args "time_min").getD (.str nowIso))
      ((dget args "time_max").getD .null) ((dget args "max_results").getD (.int 10))
    unfold listEvents
    simp only []
    rw [hr]
    simp [hi, truthy]
  · obtain ⟨r, hr, hi⟩ := hg ((dget args2 "max_results").getD (.int 10))
      ((dget args2 "query").getD (.str ""))
    unfold listEmails
    simp only []
    rw [hr]
    simp [hi, truthy]

/-- A calendar provider oracle that lists an empty result set. -/
def calOracleEmptyList : CalService :=
  { insertExec := fun _ _ => .error "HttpError 500"
    listExec := fun _ _ _ => .ok []
    getExec := fun _ _ => .error "HttpError 500"
    updateExec := fun _ _ _ => .error "HttpError 500"
    deleteExec := fun _ _ => .error "HttpError 500" }

/-- Witness for C8 at concrete empty-listing oracles. -/
theorem empty_provider_results_witness :
    (listEvents (some calOracleEmptyList) "2024-01-01T00:00:00Z" []).2
      = .ok [tc "No upcoming events found."] ∧
    (listEmails (some gmailOracleOk) []).2 = .ok [tc "No emails found."] :=
  empty_provider_results calOracleEmptyList gmailOracleOk "2024-01-01T00:00:00Z" [] []
    (fun _ _ _ => ⟨[], rfl, rfl⟩) (fun _ _ => ⟨[], rfl, rfl⟩)

/-! ### Body-part scanning lemmas -/

/-- Parts that are dicts with a non-`text/plain` mimeType. -/
def NonPlainPart (p : JVal) : Prop :=
  ∃ po m, p = JVal.obj po ∧ dget po "mimeType" = some (JVal.str m) ∧ m ≠ "text/plain"

theorem scanParts_cons_no_match (p : JVal) (rest : List JVal) (hp : NonPlainPart p) :
    scanParts (p :: rest) = scanParts rest := by
  obtain ⟨po, m, rfl, hmt, hm⟩ := hp
  simp only [scanParts, jIndex, hmt]
  simp [bind, Except.bind, jeq, hm]

theorem scanParts_no_match (ps : List JVal) (h : ∀ p ∈ ps, NonPlainPart p) :
    scanParts ps = .ok "" := by
  induction ps with
  | nil => rfl
  | cons p rest ih =>
    rw [scanParts_cons_no_match p rest (h p (by simp))]
    exact ih fun q hq => h q (by simp [hq])

theorem scanParts_skip_front (ps1 ps2 : List JVal) (h : ∀ p ∈ ps1, NonPlainPart p) :
    scanParts (ps1 ++ ps2) = scanParts ps2 := by
  induction ps1 with
  | nil => rfl
  | cons p rest ih =>
    rw [List.cons_append, scanParts_cons_no_match p (rest ++ ps2) (h p (by simp))]
    exact ih fun q hq => h q (by simp [hq])

theorem scanParts_first_plain (po : JObj) (bo : JObj) (d : JVal) (rest : List JVal)
    (hmt : dget po "mimeType" = some (JVal.str "text/plain"))
    (hb : dget po "body" = some (JVal.obj bo))
    (hd : dget bo "data" = some d) :
    scanParts (JVal.obj po :: rest) = decodeBodyData d := by
  simp only [scanParts, jIndex, hmt, hb, hd]
  simp [bind, Except.bind, jeq, hd]

theorem findHeaderD_no_match (hs : List JVal) (nm dflt : String)
    (h : ∀ x ∈ hs, ∃ ho v, x = JVal.obj ho ∧ dget ho "name" = some (JVal.str v) ∧ v ≠ nm) :
    findHeaderD hs nm dflt = .ok (.str dflt) := by
  induction hs with
  | nil => rfl
  | cons x rest ih =>
    obtain ⟨ho, v, rfl, hn, hv⟩ := h x (by simp)
    simp only [findHeaderD, jIndex, hn]
    simp only [bind, Except.bind]
    rw [if_neg (by simp [jeq, hv])]
    exact ih fun q hq => h q (by simp [hq])

/-- The nested-multipart payload: its only `text/plain` part sits inside a
sub-part, not in the top-level parts list. -/
def nestedPayload : JVal :=
  .obj [("mimeType", .str "multipart/mixed"),
    ("parts", .arr [
      .obj [("mimeType", .str "multipart/alternative"),
        ("parts", .arr [.obj [("mimeType", .str "text/plain"),
          ("body", .obj [("data", .str "aGVsbG8=")])]])]])]

/-- C4 counterexample: for a multi-part message whose only `text/plain`
part is nested inside a sub-part, `get_email` does not search nested
parts: the decoded nested text would be `"hello"`, but the extracted
body is `""`. -/
theorem get_email_nested_body_cex :
    decodeBodyData (JVal.str "aGVsbG8=") = .ok "hello" ∧
    extractBody nestedPayload = .ok "" ∧
    extractBody nestedPayload ≠ .ok "hello" := by
  have h1 : decodeBodyData (JVal.str "aGVsbG8=") = .ok "hello" := by
    have he : ("aGVsbG8=" : String) = sendPathBodyRaw "hello" := by rfl
    rw [he]
    exact decodeBodyData_sendPathBodyRaw "hello"
  have h2 : extractBody nestedPayload = .ok "" := by
    simp [extractBody, nestedPayload, pyContains, dget, jIndex, scanParts, jeq,
      bind, Except.bind, pure, Except.pure, pyIter]
  refine ⟨h1, h2, ?_⟩
  rw [h2]
  simp

/-- C4 amended: `get_email` extracts headers with placeholder defaults,
but searches only the immediate `parts` list for a `text/plain` part: the
first direct `text/plain` part supplies the body (base64url- then
UTF-8-decoded); when no direct part matches, the body is reported as the
empty string even if a `text/plain` part is nested deeper; single-part
payloads use the top-level body exactly when the top-level mimeType is
`text/plain`. -/
theorem get_email_body_extraction (pobj : JObj) :
    (∀ ps, dget pobj "parts" = some (.arr ps) → (∀ p ∈ ps, NonPlainPart p) →
      extractBody (.obj pobj) = .ok "") ∧
    (∀ ps1 ps2 po bo d, dget pobj "parts" = some (.arr (ps1 ++ JVal.obj po :: ps2)) →
      (∀ p ∈ ps1, NonPlainPart p) →
      dget po "mimeType" = some (JVal.str "text/plain") →
      dget po "body" = some (JVal.obj bo) →
      dget bo "data" = some d →
      extractBody (.obj pobj) = decodeBodyData d) ∧
    (∀ bo d, dget pobj "parts" = none →
      dget pobj "mimeType" = some (JVal.str "text/plain") →
      dget pobj "body" = some (JVal.obj bo) →
      dget bo "data" = some d →
      extractBody (.obj pobj) = decodeBodyData d) ∧
    (∀ hs nm dflt,
      (∀ x ∈ hs, ∃ ho v, x = JVal.obj ho ∧ dget ho "name" = some (JVal.str v) ∧ v ≠ nm) →
      findHeaderD hs nm dflt = .ok (.str dflt)) := by
  refine ⟨?_, ?_, ?_, fun hs nm dflt h => findHeaderD_no_match hs nm dflt h⟩
  · intro ps hp hall
    simp only [extractBody, pyContains, jIndex, hp, bind, Except.bind, Option.isSome_some]
    simp only [if_pos rfl, pyIter]
    exact scanParts_no_match ps hall
  · intro ps1 ps2 po bo d hp hpre hmt hb hd
    simp only [extractBody, pyContains, jIndex, hp, bind, Except.bind, Option.isSome_some]
    simp only [if_pos rfl, pyIter]
    rw [scanParts_skip_front ps1 (JVal.obj po :: ps2) hpre]
    exact scanParts_first_plain po bo d ps2 hmt hb hd
  · intro bo d hp hmt hb hd
    simp only [extractBody, pyContains, jIndex, hp, hmt, bind, Except.bind, Option.isSome_none]
    simp only [Bool.false_eq_true, if_neg, ite_false]
    simp [bind, Except.bind, jeq, hb, hd]

/-- Witness for C4's amended claim at concrete payloads. -/
theorem get_email_body_extraction_witness :
    extractBody (.obj [("mimeType", .str "multipart/mixed"),
      ("parts", .arr [.obj [("mimeType", .str "text/html"),
        ("body", .obj [("data", .str "PGI+aGk8L2I+")])]])]) = .ok "" ∧
    extractBody (.obj [("mimeType", .str "multipart/mixed"),
      ("parts", .arr [.obj [("mimeType", .str "text/html"),
        ("body", .obj [("data", .str "PGI+aGk8L2I+")])],
        .obj [("mimeType", .str "text/plain"),
          ("body", .obj [("data", .str "aGVsbG8=")])]])])
      = decodeBodyData (.str "aGVsbG8=") ∧
    findHeaderD [] "Subject" "(No Subject)" = .ok (.str "(No Subject)") := by
  obtain ⟨ha, hbb, _, hh⟩ := get_email_body_extraction [("mimeType", .str "multipart/mixed"),
    ("parts", .arr [.obj [("mimeType", .str "text/html"),
      ("body", .obj [("data", .str "PGI+aGk8L2I+")])]])]
  obtain ⟨_, hb2, _, _⟩ := get_email_body_extraction [("mimeType", .str "multipart/mixed"),
    ("parts", .arr [.obj [("mimeType", .str "text/html"),
      ("body", .obj [("data", .str "PGI+aGk8L2I+")])],
      .obj [("mimeType", .str "text/plain"),
        ("body", .obj [("data", .str "aGVsbG8=")])]])]
  refine ⟨?_, ?_, ?_⟩
  · refine ha [.obj [("mimeType", .str "text/html"),
      ("body", .obj [("data", .str "PGI+aGk8L2I+")])]] rfl ?_
    intro p hp
    simp only [List.mem_singleton] at hp
    subst hp
    exact ⟨_, "text/html", rfl, rfl, by decide⟩
  · refine hb2 [.obj [("mimeType", .str "text/html"),
      ("body", .obj [("data", .str "PGI+aGk8L2I+")])]] [] _ _ _ rfl ?_ rfl rfl rfl
    intro p hp
    simp only [List.mem_singleton] at hp
    subst hp
    exact ⟨_, "text/html", rfl, rfl, by decide⟩
  · exact hh [] "Subject" "(No Subject)" (by simp)
